/-
Verification of the carbontally carbon-sequestration core: the biomass/CO2
estimator, the tree-identifier generator, and the ingestion / deduplication
logic, embedded from app.py, kobo_integration.py and kobo_monitoring.py.

Real-valued arithmetic of the Python source is modelled over the reals; the
round-to-2-decimals of Python's round(x, 2) is modelled as floor(100 x + 1/2)/100
(none of the values the claims touch sit on a rounding tie).  String handling
is modelled at the ASCII level, which covers every identifier and name the
claims use.
-/
import Mathlib

namespace CarbonTally

/-! ### Biomass / CO2 estimator (app.py `calculate_co2`,
kobo_integration.py and kobo_monitoring.py `calculate_co2_sequestration`;
the latter two are textually identical in the source). -/

/-- Model of Python's round(x, 2): round half up to two decimal places. -/
noncomputable def round2 (x : ℝ) : ℝ := (⌊x * 100 + 1 / 2⌋ : ℤ) / 100

/-- Model of Python's x ** 2.5 for the nonnegative measurements the code
feeds it: x ^ 2 * sqrt x. -/
noncomputable def pow25 (x : ℝ) : ℝ := x ^ 2 * Real.sqrt x

/-- The shared arithmetic body of the estimator, given the already-resolved
wood density.  Mirrors the source lines

  if dbh is not None and dbh > 0: agb = 0.0509 * density * dbh ** 2.5
  elif rcd is not None and rcd > 0: agb = 0.042 * rcd ** 2.5
  else: return 0.0
  bgb = 0.2 * agb
  carbon = 0.47 * (agb + bgb)
  return round(carbon * 3.67, 2)

with a missing measurement (None) modelled as an Option and the guard
`m is not None and m greater than 0` rendered as 0 < m.getD 0. -/
noncomputable def co2_of_density (density : ℝ) (rcd dbh : Option ℝ) : ℝ :=
  if 0 < dbh.getD 0 then
    round2 (0.47 * (0.0509 * density * pow25 (dbh.getD 0)
      + 0.2 * (0.0509 * density * pow25 (dbh.getD 0))) * 3.67)
  else if 0 < rcd.getD 0 then
    round2 (0.47 * (0.042 * pow25 (rcd.getD 0)
      + 0.2 * (0.042 * pow25 (rcd.getD 0))) * 3.67)
  else 0

/-- A row of the `species` table: scientific name and nullable wood density. -/
structure SpeciesRow where
  scientific_name : String
  wood_density : Option ℝ

/-- Density lookup of `calculate_co2_sequestration` (kobo_integration.py
lines 570-578 and the identical copy in kobo_monitoring.py): the SQL query
`SELECT wood_density FROM species WHERE scientific_name = ?` returns its first
row, and the source substitutes 0.6 when the result set is empty or the stored
density is NULL. -/
noncomputable def lookupDensity (species : List SpeciesRow) (name : String) : ℝ :=
  match species.find? (fun r => r.scientific_name == name) with
  | some r => match r.wood_density with
              | some d => d
              | none => 0.6
  | none => 0.6

/-- Embeds `calculate_co2_sequestration` of kobo_integration.py (lines
566-596) and kobo_monitoring.py (identical copy): resolve the density, then
run the shared arithmetic body. -/
noncomputable def calculate_co2_sequestration (species : List SpeciesRow)
    (name : String) (rcd dbh : Option ℝ) : ℝ :=
  co2_of_density (lookupDensity species name) rcd dbh

/-- Density lookup of app.py `calculate_co2` (lines 508-512) over the
nullable wood_density column: the pandas selection
`species_data[scientific_name == name].wood_density.values[0]` raises
IndexError on an empty selection, which the bare except turns into the 0.6
fallback; but a MATCHING row whose stored density is SQL NULL raises nothing
— pandas renders the NULL cell as the float NaN — so the except is never
reached and the non-numeric density (modelled as `none`) flows on. -/
noncomputable def lookupDensityApp (species : List SpeciesRow) (name : String) : Option ℝ :=
  match species.find? (fun r => r.scientific_name == name) with
  | some r => match r.wood_density with
              | some d => some d
              | none => none
  | none => some 0.6

/-- Embeds `calculate_co2` of app.py (lines 507-523).  A NaN density
contaminates the DBH product and the rounding, so the DBH branch returns NaN
(`none`); the RCD branch and the no-measurement branch never read the density
and return ordinary numbers. -/
noncomputable def calculate_co2 (species : List SpeciesRow)
    (name : String) (rcd dbh : Option ℝ) : Option ℝ :=
  if 0 < dbh.getD 0 then
    match lookupDensityApp species name with
    | some d => some (round2 (0.47 * (0.0509 * d * pow25 (dbh.getD 0)
        + 0.2 * (0.0509 * d * pow25 (dbh.getD 0))) * 3.67))
    | none => none
  else if 0 < rcd.getD 0 then
    some (round2 (0.47 * (0.042 * pow25 (rcd.getD 0)
      + 0.2 * (0.042 * pow25 (rcd.getD 0))) * 3.67))
  else some 0

/-- A row of the `trees` table (app.py lines 262-286). -/
structure TreeRow where
  tree_id : String
  institution : String
  local_name : String
  scientific_name : String
  student_name : String
  date_planted : String
  tree_stage : String
  rcd_cm : Option ℚ
  dbh_cm : Option ℚ
  height_m : Option ℚ
  latitude : Option ℚ
  longitude : Option ℚ
  co2_kg : Option ℚ
  status : String
  country : String
  county : String
  sub_county : String
  ward : String
  adopter_name : Option String
  last_monitored : Option String
  monitor_notes : String
  qr_code : String
  kobo_submission_id : Option String
deriving DecidableEq

/-- A row of the `monitoring_history` table (app.py lines 303-317; the
AUTOINCREMENT surrogate id is not modelled). -/
structure MonitoringRow where
  tree_id : String
  monitor_date : String
  monitor_status : String
  monitor_stage : String
  rcd_cm : Option ℚ
  dbh_cm : Option ℚ
  height_m : Option ℚ
  co2_kg : Option ℚ
  notes : String
  monitor_by : String
  kobo_submission_id : Option String
deriving DecidableEq

/-- A row of the `processed_monitoring_submissions` table (app.py lines
333-338). -/
structure ProcessedRow where
  submission_id : String
  tree_id : String
  processed_date : String
deriving DecidableEq

/-- The relational store state visible to the core. -/
structure DB where
  trees : List TreeRow
  monitoring_history : List MonitoringRow
  processed_monitoring_submissions : List ProcessedRow
deriving DecidableEq

/-- INSERT INTO trees violates a constraint (sqlite3.IntegrityError) iff the
PRIMARY KEY tree_id or the UNIQUE kobo_submission_id (when non-NULL; SQL NULLs
never collide) already occurs. -/
def treeConflict (db : DB) (t : TreeRow) : Bool :=
  db.trees.any (fun u => u.tree_id == t.tree_id
    || (t.kobo_submission_id.isSome && u.kobo_submission_id == t.kobo_submission_id))

/-- INSERT INTO monitoring_history violates the UNIQUE kobo_submission_id of
the app.py schema iff that non-NULL value already occurs. -/
def monitoringConflict (db : DB) (m : MonitoringRow) : Bool :=
  m.kobo_submission_id.isSome
    && db.monitoring_history.any (fun u => u.kobo_submission_id == m.kobo_submission_id)

/-- INSERT INTO processed_monitoring_submissions violates the PRIMARY KEY
submission_id iff it already occurs. -/
def processedConflict (db : DB) (p : ProcessedRow) : Bool :=
  db.processed_monitoring_submissions.any (fun u => u.submission_id == p.submission_id)

/-! ### Saving a planting submission (kobo_integration.py
`save_tree_submission`, transactional part, lines 523-564).  The model takes
the fully built submission_data row (tree_id, qr_code and co2_kg are filled in
by the caller-side preamble of the source).  The returned qr_path component is
omitted. -/

/-- The initial monitoring_history row inserted together with a new tree
(kobo_integration.py lines 534-551); the insert there lists no
kobo_submission_id column, so that column is NULL. -/
def initialMonitoringRow (sd : TreeRow) : MonitoringRow :=
  { tree_id := sd.tree_id
    monitor_date := sd.date_planted
    monitor_status := "Alive"
    monitor_stage := sd.tree_stage
    rcd_cm := sd.rcd_cm
    dbh_cm := sd.dbh_cm
    height_m := sd.height_m
    co2_kg := sd.co2_kg
    notes := sd.monitor_notes
    monitor_by := sd.student_name
    kobo_submission_id := none }

/-- Embeds the transactional body of `save_tree_submission`: insert the tree
row, insert the initial monitoring row, commit; any sqlite3 error rolls the
connection back to the incoming state and reports (False, None).  The result
is ((success flag, new tree id), committed store). -/
def save_tree_submission (db : DB) (sd : TreeRow) : (Bool × Option String) × DB :=
  if treeConflict db sd then ((false, none), db)
  else
    let db1 := { db with trees := db.trees ++ [sd] }
    if monitoringConflict db1 (initialMonitoringRow sd) then ((false, none), db)
    else ((true, some sd.tree_id),
      { db1 with monitoring_history := db1.monitoring_history ++ [initialMonitoringRow sd] })

/-! ### Saving a monitoring submission (kobo_monitoring.py
`save_monitoring_submission`, lines 535-604). -/

/-- The mapped monitoring_data dict handed to `save_monitoring_submission`
(its kobo_submission_id is always a string in the source, possibly empty). -/
structure MonitoringData where
  tree_id : String
  monitor_date : String
  monitor_status : String
  monitor_stage : String
  rcd_cm : Option ℚ
  dbh_cm : Option ℚ
  height_m : Option ℚ
  co2_kg : Option ℚ
  notes : String
  monitor_by : String
  kobo_submission_id : String
deriving DecidableEq

/-- The monitoring_history row inserted for a monitoring event
(kobo_monitoring.py lines 547-568). -/
def monitoringRowOf (md : MonitoringData) : MonitoringRow :=
  { tree_id := md.tree_id
    monitor_date := md.monitor_date
    monitor_status := md.monitor_status
    monitor_stage := md.monitor_stage
    rcd_cm := md.rcd_cm
    dbh_cm := md.dbh_cm
    height_m := md.height_m
    co2_kg := md.co2_kg
    notes := md.notes
    monitor_by := md.monitor_by
    kobo_submission_id := some md.kobo_submission_id }

/-- The UPDATE trees SET ... WHERE tree_id = ? of kobo_monitoring.py lines
570-590, applied to one row: rows whose tree_id matches get the observed
status, stage, measurements, co2 and last_monitored; all other rows (and all
other columns) are untouched. -/
def updateTreeFromMonitoring (md : MonitoringData) (t : TreeRow) : TreeRow :=
  if t.tree_id == md.tree_id then
    { t with status := md.monitor_status
             tree_stage := md.monitor_stage
             rcd_cm := md.rcd_cm
             dbh_cm := md.dbh_cm
             height_m := md.height_m
             co2_kg := md.co2_kg
             last_monitored := some md.monitor_date }
  else t

/-- Embeds `save_monitoring_submission`: a falsy (None/empty) input returns
False immediately; otherwise insert the monitoring row, update the parent
tree, insert the processed-submission ledger row, and commit — any sqlite3
error rolls back to the incoming state.  `now` stands for
datetime.now().isoformat() used in the ledger row. -/
def save_monitoring_submission : DB → Option MonitoringData → String → Bool × DB
  | db, none, _ => (false, db)
  | db, some md, now =>
    if monitoringConflict db (monitoringRowOf md) then (false, db)
    else
      let db1 := { db with monitoring_history := db.monitoring_history ++ [monitoringRowOf md] }
      let db2 := { db1 with trees := db1.trees.map (updateTreeFromMonitoring md) }
      if processedConflict db2 ⟨md.kobo_submission_id, md.tree_id, now⟩ then (false, db)
      else (true,
        { db2 with processed_monitoring_submissions :=
            db2.processed_monitoring_submissions ++ [⟨md.kobo_submission_id, md.tree_id, now⟩] })

/-! ### Tree identifier generation (kobo_integration.py `generate_tree_id`
lines 421-465, app.py `generate_tree_id` lines 491-505). -/

/-- Left-pad a natural number with zeros to width w: Python's percent-0wd
format (wider numbers print in full). -/
def padNum (w : ℕ) (n : ℕ) : String :=
  String.mk (List.replicate (w - (toString n).length) '0') ++ toString n

/-- The organization code of kobo_integration.py: a falsy name gives "TRE",
otherwise upper-case the name, strip every character outside A-Z, take the
first three characters, and fall back to "TRE" when that is empty
(the source line re.sub of non-A-Z over name.upper(), sliced to 3, or "TRE";
modelled at the ASCII level). -/
def orgCode (name : String) : String :=
  if name = "" then "TRE"
  else
    let stripped := String.mk (((name.data.map Char.toUpper).filter Char.isUpper).take 3)
    if stripped = "" then "TRE" else stripped

/-- Value of a list of decimal digit characters. -/
def digitsVal (ds : List Char) : ℕ :=
  ds.foldl (fun a c => 10 * a + (c.toNat - '0'.toNat)) 0

/-- The trailing-digits regex match of the source (a search for one or more
digits anchored at the end): the maximal digit suffix, None when there is
none. -/
def trailingNat (s : String) : Option ℕ :=
  let ds := (s.data.reverse.takeWhile Char.isDigit).reverse
  if ds = [] then none else some (digitsVal ds)

/-- Embeds the normal (no storage error) path of kobo_integration.py
`generate_tree_id`: read the tree_ids of the organization's rows, keep those
starting with the organization code, extract trailing numeric suffixes, and
emit code ++ pad3 (max + 1), with "001" when no id or no suffix exists. -/
def generate_tree_id (db : DB) (institution_name : String) : String :=
  let code := orgCode institution_name
  let local_ids := (db.trees.filter (fun t => t.institution == institution_name)).map
    (fun t => t.tree_id)
  let code_ids := local_ids.filter (fun i => code.data.isPrefixOf i.data)
  if code_ids = [] then code ++ "001"
  else
    let sequence_numbers := code_ids.filterMap trailingNat
    if sequence_numbers = [] then code ++ "001"
    else code ++ padNum 3 (sequence_numbers.foldl max 0 + 1)

/-- Embeds kobo_integration.py `generate_tree_id` including its except
branch (lines 460-465): when the storage scan raises, the source swallows the
error and returns the time-based fallback code ++ percent-05d of
int(time.time()) mod 100000; `scanFails` models the raise and `now` models
int(time.time()). -/
def generate_tree_id_full (db : DB) (institution_name : String)
    (scanFails : Bool) (now : ℕ) : String :=
  if scanFails then orgCode institution_name ++ padNum 5 (now % 100000)
  else generate_tree_id db institution_name

/-- Embeds app.py `generate_tree_id` (lines 491-505): the code is just the
first three characters upper-cased (no stripping, no fallback), the
institution filter is case-insensitive, and `max` over an empty suffix list
raises ValueError uncaught (modelled as none). -/
def app_generate_tree_id (db : DB) (institution_name : String) : Option String :=
  let code := String.mk ((institution_name.data.take 3).map Char.toUpper)
  if db.trees = [] then some (code ++ "001")
  else
    let institution_trees := db.trees.filter
      (fun t => t.institution.data.map Char.toLower == institution_name.data.map Char.toLower)
    let existing_ids := (institution_trees.map (fun t => t.tree_id)).filter
      (fun i => code.data.isPrefixOf i.data)
    if existing_ids = [] then some (code ++ "001")
    else
      let nums := existing_ids.filterMap trailingNat
      if nums = [] then none
      else some (code ++ padNum 3 (nums.foldl max 0 + 1))

/-- Written from the wording of the specification (claim C5): the organization
code followed by the zero-padded successor of the maximum trailing-digit
suffix among that organization's identifiers starting with the code
(0 when there are none), for comparison with the source-derived generator. -/
def spec_tree_id (db : DB) (institution_name : String) : String :=
  let code := orgCode institution_name
  let suffixes := (((db.trees.filter (fun t => t.institution == institution_name)).map
      (fun t => t.tree_id)).filter (fun i => code.data.isPrefixOf i.data)).filterMap trailingNat
  code ++ padNum 3 (suffixes.foldl max 0 + 1)

/-! ### Deduplication checks. -/

/-- Embeds kobo_integration.py `is_submission_processed` (lines 704-719): a
falsy submission id returns False; a raised sqlite3.OperationalError from the
query (modelled by dbError) is caught and returns False; otherwise the id is
processed iff some tree row carries it as kobo_submission_id. -/
def is_submission_processed (db : DB) (submission_id : String) (dbError : Bool) : Bool :=
  if submission_id = "" then false
  else if dbError then false
  else db.trees.any (fun t => t.kobo_submission_id == some submission_id)

/-- Embeds kobo_monitoring.py `is_monitoring_submission_processed` (lines
436-450): a falsy id returns False; any exception from the query (modelled by
dbError) is caught and returns False; otherwise the id is processed iff it
occurs in the processed_monitoring_submissions ledger. -/
def is_monitoring_submission_processed (db : DB) (submission_id : String)
    (dbError : Bool) : Bool :=
  if submission_id = "" then false
  else if dbError then false
  else db.processed_monitoring_submissions.any (fun p => p.submission_id == submission_id)

/-! ### Per-submission ingestion steps, condensed from the loop bodies of
kobo_integration.py `check_for_new_submissions` (lines 630-690) and
kobo_monitoring.py `check_for_new_monitoring_submissions`. -/

/-- A mapped KoBo planting submission: its external _id, the claimed
institution, and the mapped field payload (whose tree_id, kobo_submission_id
are filled in at save time). -/
structure PlantingSubmission where
  kobo_id : String
  institution : String
  row : TreeRow

/-- The fully built submission_data row for a new planting: the mapped
payload with the freshly generated tree_id and the external submission id
(the source's submission_data.update before the inserts). -/
def plantedRow (db : DB) (sub : PlantingSubmission) : TreeRow :=
  { sub.row with tree_id := generate_tree_id db sub.institution
                 kobo_submission_id := some sub.kobo_id }

/-- One iteration of the planting ingestion loop: skip on a missing external
id, on an already-processed id, or on an institution mismatch (lower-cased
comparison); otherwise generate the tree id and run the transactional save.
Returns the resulting store and the newly issued tree id (none when skipped
or failed). -/
def process_planting (db : DB) (sub : PlantingSubmission)
    (user_institution : String) : DB × Option String :=
  if sub.kobo_id = "" then (db, none)
  else if is_submission_processed db sub.kobo_id false then (db, none)
  else if sub.institution.data.map Char.toLower
      == user_institution.data.map Char.toLower then
    let r := save_tree_submission db (plantedRow db sub)
    (r.2, r.1.2)
  else (db, none)

/-- One iteration of the monitoring ingestion loop: skip on a missing external
id or an already-processed id; otherwise run the transactional save.  Returns
the resulting store and whether a new record was written. -/
def process_monitoring (db : DB) (md : MonitoringData) (now : String) : DB × Bool :=
  if md.kobo_submission_id = "" then (db, false)
  else if is_monitoring_submission_processed db md.kobo_submission_id false then (db, false)
  else
    let r := save_monitoring_submission db (some md) now
    (r.2, r.1)

/-! ### Concrete fixtures used by witnesses and scenarios. -/

/-- A sample persisted tree of institution "Greenwood High". -/
def sampleTree : TreeRow :=
  { tree_id := "GRE001"
    institution := "Greenwood High"
    local_name := "Mango"
    scientific_name := "Mangifera indica"
    student_name := "Asha"
    date_planted := "2024-03-01"
    tree_stage := "Seedling"
    rcd_cm := some 2
    dbh_cm := none
    height_m := some 1
    latitude := some 0
    longitude := some 36
    co2_kg := some 1
    status := "Alive"
    country := "Kenya"
    county := "Nairobi"
    sub_county := ""
    ward := ""
    adopter_name := none
    last_monitored := none
    monitor_notes := ""
    qr_code := "qr"
    kobo_submission_id := some "K1" }

/-- A store holding exactly the sample tree. -/
def sampleDB : DB := ⟨[sampleTree], [], []⟩

/-- A sample monitoring event for the sample tree. -/
def sampleMonitoring : MonitoringData :=
  { tree_id := "GRE001"
    monitor_date := "2024-06-01"
    monitor_status := "Alive"
    monitor_stage := "Sapling"
    rcd_cm := some 3
    dbh_cm := none
    height_m := some 2
    co2_kg := some 2
    notes := ""
    monitor_by := "Asha"
    kobo_submission_id := "M1" }

/-- A sample unprocessed planting submission for "Greenwood High". -/
def samplePlanting : PlantingSubmission :=
  { kobo_id := "S9"
    institution := "Greenwood High"
    row := { sampleTree with tree_id := "", kobo_submission_id := none } }

/-- A Greenwood High tree with a given identifier and no external id. -/
def greenwoodTree (tid : String) : TreeRow :=
  { sampleTree with tree_id := tid, kobo_submission_id := none }

/-- The store of the second identifier scenario: GRE001 .. GRE005 exist. -/
def greenwoodDB : DB :=
  ⟨[greenwoodTree "GRE001", greenwoodTree "GRE002", greenwoodTree "GRE003",
    greenwoodTree "GRE004", greenwoodTree "GRE005"], [], []⟩

/-! ### Helper lemmas. -/

lemma round2_mono {x y : ℝ} (h : x ≤ y) : round2 x ≤ round2 y := by
  unfold round2
  have h2 : (⌊x * 100 + 1 / 2⌋ : ℤ) ≤ ⌊y * 100 + 1 / 2⌋ :=
    Int.floor_mono (by linarith)
  have h3 : ((⌊x * 100 + 1 / 2⌋ : ℤ) : ℝ) ≤ ((⌊y * 100 + 1 / 2⌋ : ℤ) : ℝ) := by
    exact_mod_cast h2
  exact (div_le_div_iff_of_pos_right (by norm_num : (0:ℝ) < 100)).2 h3

lemma pow25_nonneg (x : ℝ) : 0 ≤ pow25 x :=
  mul_nonneg (sq_nonneg x) (Real.sqrt_nonneg x)

lemma pow25_mono {x y : ℝ} (hx : 0 ≤ x) (hxy : x ≤ y) : pow25 x ≤ pow25 y :=
  mul_le_mul (pow_le_pow_left₀ hx hxy 2) (Real.sqrt_le_sqrt hxy)
    (Real.sqrt_nonneg x) (pow_nonneg (hx.trans hxy) 2)

/-- When app.py's lookup resolves to an actual number (a stored non-NULL
density, or the 0.6 fallback after a missing record), `calculate_co2`
coincides with the shared arithmetic body at that density. -/
lemma calculate_co2_resolved (tbl : List SpeciesRow) (name : String)
    (rcd dbh : Option ℝ) (d : ℝ) (h : lookupDensityApp tbl name = some d) :
    calculate_co2 tbl name rcd dbh = some (co2_of_density d rcd dbh) := by
  unfold calculate_co2 co2_of_density
  by_cases h1 : 0 < dbh.getD 0
  · rw [if_pos h1, if_pos h1, h]
  · rw [if_neg h1, if_neg h1]
    by_cases h2 : 0 < rcd.getD 0
    · rw [if_pos h2, if_pos h2]
    · rw [if_neg h2, if_neg h2]

/-- `save_tree_submission` either commits exactly its two inserts or leaves
the store untouched and reports failure. -/
lemma save_tree_cases (db : DB) (sd : TreeRow) :
    save_tree_submission db sd =
      ((true, some sd.tree_id),
        { db with trees := db.trees ++ [sd]
                  monitoring_history := db.monitoring_history ++ [initialMonitoringRow sd] })
    ∨ save_tree_submission db sd = ((false, none), db) := by
  unfold save_tree_submission
  split_ifs <;> simp

/-- `save_monitoring_submission` either commits exactly its three writes or
leaves the store untouched and reports failure. -/
lemma save_monitoring_cases (db : DB) (md : MonitoringData) (now : String) :
    save_monitoring_submission db (some md) now =
      (true,
        { trees := db.trees.map (updateTreeFromMonitoring md)
          monitoring_history := db.monitoring_history ++ [monitoringRowOf md]
          processed_monitoring_submissions :=
            db.processed_monitoring_submissions ++ [⟨md.kobo_submission_id, md.tree_id, now⟩] })
    ∨ save_monitoring_submission db (some md) now = (false, db) := by
  unfold save_monitoring_submission
  dsimp only
  split_ifs <;> simp

/-! ### Claim theorems. -/

/-- C8: the per-submission ingestion writes are atomic: `save_tree_submission`
either commits the tree insert together with the initial monitoring-history
insert, or (on an integrity error) rolls both back, reports failure and leaves
the store unchanged; `save_monitoring_submission` likewise commits the
monitoring-history insert, the parent tree update and the processed-submission
ledger insert together, or rolls all three back leaving the store unchanged. -/
theorem ingestion_atomic :
    (∀ (db : DB) (sd : TreeRow),
      save_tree_submission db sd =
        ((true, some sd.tree_id),
          { db with trees := db.trees ++ [sd]
                    monitoring_history := db.monitoring_history ++ [initialMonitoringRow sd] })
      ∨ save_tree_submission db sd = ((false, none), db))
    ∧ ∀ (db : DB) (md : MonitoringData) (now : String),
      save_monitoring_submission db (some md) now =
        (true,
          { trees := db.trees.map (updateTreeFromMonitoring md)
            monitoring_history := db.monitoring_history ++ [monitoringRowOf md]
            processed_monitoring_submissions :=
              db.processed_monitoring_submissions ++ [⟨md.kobo_submission_id, md.tree_id, now⟩] })
      ∨ save_monitoring_submission db (some md) now = (false, db) :=
  ⟨save_tree_cases, save_monitoring_cases⟩

/-- C10: both deduplication checks report False for an empty (falsy)
submission identifier, and both swallow a raised database error from the
underlying query and report False, so such submissions are treated as not yet
processed instead of surfacing an error. -/
theorem dedup_check_fail_open :
    (∀ db : DB, is_submission_processed db "" false = false
      ∧ is_monitoring_submission_processed db "" false = false)
    ∧ ∀ (db : DB) (sid : String), is_submission_processed db sid true = false
      ∧ is_monitoring_submission_processed db sid true = false := by
  constructor
  · intro db
    constructor <;> simp [is_submission_processed, is_monitoring_submission_processed]
  · intro db sid
    by_cases h : sid = "" <;>
      simp [is_submission_processed, is_monitoring_submission_processed, h]

/-- C5, counterexample: app.py's `generate_tree_id` derives the code from the
raw first three characters of the organization name, so for "St. Mary" on an
empty store it returns "ST.001", not the "STM001" demanded by the claim's
strip-non-alphabetic rule. -/
theorem app_generate_tree_id_counterexample :
    app_generate_tree_id ⟨[], [], []⟩ "St. Mary" = some "ST.001"
    ∧ spec_tree_id ⟨[], [], []⟩ "St. Mary" = "STM001"
    ∧ "ST.001" ≠ "STM001" := by
  refine ⟨by decide, by decide, by decide⟩

/-- C5, amended: the kobo_integration.py `generate_tree_id` implements the
claimed algorithm exactly — organization code (upper-cased, stripped to A-Z,
three characters, generic fallback) followed by the zero-padded successor of
the maximum trailing-digit suffix (0 when none) — and the two Greenwood High
scenarios hold. -/
theorem generate_tree_id_matches_spec :
    (∀ (db : DB) (name : String), generate_tree_id db name = spec_tree_id db name)
    ∧ generate_tree_id ⟨[], [], []⟩ "Greenwood High" = "GRE001"
    ∧ generate_tree_id greenwoodDB "Greenwood High" = "GRE006" := by
  have hpad : padNum 3 1 = "001" := by decide
  refine ⟨?_, by decide, by decide⟩
  intro db name
  unfold generate_tree_id spec_tree_id
  by_cases h1 : ((db.trees.filter (fun t => t.institution == name)).map
      (fun t => t.tree_id)).filter (fun i => (orgCode name).data.isPrefixOf i.data) = []
  · simp [h1, hpad]
  · by_cases h2 : (((db.trees.filter (fun t => t.institution == name)).map
        (fun t => t.tree_id)).filter
        (fun i => (orgCode name).data.isPrefixOf i.data)).filterMap trailingNat = []
    · simp [h1, h2, hpad]
    · simp [h1, h2]

/-- C6: on the storage-error path kobo_integration.py `generate_tree_id` does
NOT propagate the error: it fabricates a timestamp-derived identifier
(code ++ time mod 100000, zero-padded to five digits), here "GRE45678" for
int(time.time()) = 1712345678, which differs from the sequential identifier
the normal path would issue. -/
theorem generate_tree_id_storage_fallback :
    generate_tree_id_full ⟨[], [], []⟩ "Greenwood High" true 1712345678 = "GRE45678"
    ∧ generate_tree_id_full ⟨[], [], []⟩ "Greenwood High" true 1712345678
        ≠ generate_tree_id ⟨[], [], []⟩ "Greenwood High" := by
  refine ⟨by decide, by decide⟩

/-- C7: ingestion is idempotent per external submission identifier: running
the planting (or monitoring) ingestion step a second time on the store the
first run produced is a no-op that returns no new identifier; and starting
from a store without the external id, at most one tree ever carries it. -/
theorem ingestion_idempotent :
    (∀ (db : DB) (sub : PlantingSubmission) (ui : String),
      process_planting (process_planting db sub ui).1 sub ui
        = ((process_planting db sub ui).1, none))
    ∧ (∀ (db : DB) (md : MonitoringData) (now : String),
      process_monitoring (process_monitoring db md now).1 md now
        = ((process_monitoring db md now).1, false))
    ∧ ∀ (db : DB) (sub : PlantingSubmission) (ui : String),
      db.trees.countP (fun t => t.kobo_submission_id == some sub.kobo_id) = 0 →
      (process_planting db sub ui).1.trees.countP
        (fun t => t.kobo_submission_id == some sub.kobo_id) ≤ 1 := by
  refine ⟨?_, ?_, ?_⟩
  · intro db sub ui
    by_cases h0 : sub.kobo_id = ""
    · simp [process_planting, h0]
    by_cases h1 : is_submission_processed db sub.kobo_id false = true
    · simp [process_planting, h0, h1]
    by_cases h2 : (sub.institution.data.map Char.toLower
        == ui.data.map Char.toLower) = true
    · rcases save_tree_cases db (plantedRow db sub) with hc | hc
      · have hfst : (process_planting db sub ui).1 =
            { db with trees := db.trees ++ [plantedRow db sub]
                      monitoring_history :=
                        db.monitoring_history ++ [initialMonitoringRow (plantedRow db sub)] } := by
          simp [process_planting, h0, h1, h2, hc]
        have hproc : is_submission_processed (process_planting db sub ui).1
            sub.kobo_id false = true := by
          rw [hfst]
          simp [is_submission_processed, h0, plantedRow]
        set db1 := (process_planting db sub ui).1 with hdb1
        show process_planting db1 sub ui = (db1, none)
        unfold process_planting
        rw [if_neg h0, if_pos hproc]
      · have hfst : process_planting db sub ui = (db, none) := by
          simp [process_planting, h0, h1, h2, hc]
        rw [hfst]
        simp [process_planting, h0, h1, h2, hc]
    · simp [process_planting, h0, h1, h2]
  · intro db md now
    by_cases h0 : md.kobo_submission_id = ""
    · simp [process_monitoring, h0]
    by_cases h1 : is_monitoring_submission_processed db md.kobo_submission_id false = true
    · simp [process_monitoring, h0, h1]
    rcases save_monitoring_cases db md now with hc | hc
    · have hfst : (process_monitoring db md now).1 =
          { trees := db.trees.map (updateTreeFromMonitoring md)
            monitoring_history := db.monitoring_history ++ [monitoringRowOf md]
            processed_monitoring_submissions :=
              db.processed_monitoring_submissions
                ++ [⟨md.kobo_submission_id, md.tree_id, now⟩] } := by
        simp [process_monitoring, h0, h1, hc]
      have hproc : is_monitoring_submission_processed (process_monitoring db md now).1
          md.kobo_submission_id false = true := by
        rw [hfst]
        simp [is_monitoring_submission_processed, h0]
      set db1 := (process_monitoring db md now).1 with hdb1
      show process_monitoring db1 md now = (db1, false)
      unfold process_monitoring
      rw [if_neg h0, if_pos hproc]
    · have hfst : process_monitoring db md now = (db, false) := by
        simp [process_monitoring, h0, h1, hc]
      rw [hfst]
      simp [process_monitoring, h0, h1, hc]
  · intro db sub ui hcount
    by_cases h0 : sub.kobo_id = ""
    · simpa [process_planting, h0] using hcount.le.trans (by norm_num)
    by_cases h1 : is_submission_processed db sub.kobo_id false = true
    · simp [process_planting, h0, h1, hcount]
    by_cases h2 : (sub.institution.data.map Char.toLower
        == ui.data.map Char.toLower) = true
    · rcases save_tree_cases db (plantedRow db sub) with hc | hc
      · have hfst : (process_planting db sub ui).1 =
            { db with trees := db.trees ++ [plantedRow db sub]
                      monitoring_history :=
                        db.monitoring_history ++ [initialMonitoringRow (plantedRow db sub)] } := by
          simp [process_planting, h0, h1, h2, hc]
        rw [hfst]
        simp [List.countP_append, hcount, plantedRow, List.countP_cons]
      · have hfst : process_planting db sub ui = (db, none) := by
          simp [process_planting, h0, h1, h2, hc]
        rw [hfst]
        simp [hcount]
    · simp [process_planting, h0, h1, h2, hcount]

/-- C7 witness: in the sample store without the external id "S9", processing
the sample submission leaves at most one tree carrying it. -/
theorem ingestion_idempotent_witness :
    sampleDB.trees.countP (fun t => t.kobo_submission_id == some samplePlanting.kobo_id) = 0
    ∧ (process_planting sampleDB samplePlanting "Greenwood High").1.trees.countP
        (fun t => t.kobo_submission_id == some samplePlanting.kobo_id) ≤ 1 :=
  ⟨by decide,
   ingestion_idempotent.2.2 sampleDB samplePlanting "Greenwood High" (by decide)⟩

/-- C9: a successful `save_monitoring_submission` maps exactly the
status / tree_stage / rcd_cm / dbh_cm / height_m / co2_kg / last_monitored
fields of the tree rows named by the event's tree identifier to the observed
values, leaves every other field of those rows and every row with another
identifier untouched, and appends one monitoring-history row while keeping
the pre-existing history unchanged. -/
theorem monitoring_update_frame (db : DB) (md : MonitoringData) (now : String)
    (h : (save_monitoring_submission db (some md) now).1 = true) :
    (save_monitoring_submission db (some md) now).2.trees
        = db.trees.map (updateTreeFromMonitoring md)
    ∧ (save_monitoring_submission db (some md) now).2.monitoring_history
        = db.monitoring_history ++ [monitoringRowOf md]
    ∧ (∀ t : TreeRow, t.tree_id ≠ md.tree_id → updateTreeFromMonitoring md t = t)
    ∧ (∀ t : TreeRow,
        (updateTreeFromMonitoring md t).tree_id = t.tree_id
        ∧ (updateTreeFromMonitoring md t).institution = t.institution
        ∧ (updateTreeFromMonitoring md t).local_name = t.local_name
        ∧ (updateTreeFromMonitoring md t).scientific_name = t.scientific_name
        ∧ (updateTreeFromMonitoring md t).student_name = t.student_name
        ∧ (updateTreeFromMonitoring md t).date_planted = t.date_planted
        ∧ (updateTreeFromMonitoring md t).latitude = t.latitude
        ∧ (updateTreeFromMonitoring md t).longitude = t.longitude
        ∧ (updateTreeFromMonitoring md t).country = t.country
        ∧ (updateTreeFromMonitoring md t).county = t.county
        ∧ (updateTreeFromMonitoring md t).sub_county = t.sub_county
        ∧ (updateTreeFromMonitoring md t).ward = t.ward
        ∧ (updateTreeFromMonitoring md t).adopter_name = t.adopter_name
        ∧ (updateTreeFromMonitoring md t).monitor_notes = t.monitor_notes
        ∧ (updateTreeFromMonitoring md t).qr_code = t.qr_code
        ∧ (updateTreeFromMonitoring md t).kobo_submission_id = t.kobo_submission_id)
    ∧ ∀ t : TreeRow, t.tree_id = md.tree_id →
        (updateTreeFromMonitoring md t).status = md.monitor_status
        ∧ (updateTreeFromMonitoring md t).tree_stage = md.monitor_stage
        ∧ (updateTreeFromMonitoring md t).rcd_cm = md.rcd_cm
        ∧ (updateTreeFromMonitoring md t).dbh_cm = md.dbh_cm
        ∧ (updateTreeFromMonitoring md t).height_m = md.height_m
        ∧ (updateTreeFromMonitoring md t).co2_kg = md.co2_kg
        ∧ (updateTreeFromMonitoring md t).last_monitored = some md.monitor_date := by
  rcases save_monitoring_cases db md now with hc | hc
  · refine ⟨by rw [hc], by rw [hc], ?_, ?_, ?_⟩
    · intro t ht
      simp [updateTreeFromMonitoring, ht]
    · intro t
      by_cases ht : t.tree_id = md.tree_id <;>
        simp [updateTreeFromMonitoring, ht]
    · intro t ht
      simp [updateTreeFromMonitoring, ht]
  · rw [hc] at h
    simp at h

/-- C9 witness: the sample monitoring event saves successfully against the
sample store and the frame property holds there. -/
theorem monitoring_update_frame_witness :
    (save_monitoring_submission sampleDB (some sampleMonitoring) "2024-06-02").1 = true
    ∧ (save_monitoring_submission sampleDB (some sampleMonitoring) "2024-06-02").2.trees
        = sampleDB.trees.map (updateTreeFromMonitoring sampleMonitoring) :=
  ⟨by decide,
   (monitoring_update_frame sampleDB sampleMonitoring "2024-06-02" (by decide)).1⟩

/-- C2: with a (nonnegative) species density fixed, the estimator is
monotonically nondecreasing in dbh on dbh greater than 0 for any rcd, and —
when dbh is absent or not positive — monotonically nondecreasing in rcd
on rcd greater than 0. -/
theorem estimator_monotone (d : ℝ) (hd : 0 ≤ d) (x₁ x₂ : ℝ)
    (h1 : 0 < x₁) (h12 : x₁ < x₂) :
    (∀ rcd : Option ℝ, co2_of_density d rcd (some x₁) ≤ co2_of_density d rcd (some x₂))
    ∧ ∀ dbh : Option ℝ, ¬ 0 < dbh.getD 0 →
      co2_of_density d (some x₁) dbh ≤ co2_of_density d (some x₂) dbh := by
  have hp := pow25_mono h1.le h12.le
  have hp0 := pow25_nonneg x₁
  constructor
  · intro rcd
    unfold co2_of_density
    simp only [Option.getD_some]
    rw [if_pos h1, if_pos (h1.trans h12)]
    exact round2_mono (by nlinarith [mul_le_mul_of_nonneg_left hp hd])
  · intro dbh hdbh
    unfold co2_of_density
    simp only [Option.getD_some]
    rw [if_neg hdbh, if_neg hdbh, if_pos h1, if_pos (h1.trans h12)]
    exact round2_mono (by nlinarith [hp, hp0])

/-- C2 witness: at density 0.6 the estimate at dbh 1 is at most that at dbh 2. -/
theorem estimator_monotone_witness :
    co2_of_density 0.6 (some 1) (some 1) ≤ co2_of_density 0.6 (some 1) (some 2) :=
  (estimator_monotone 0.6 (by norm_num) 1 2 (by norm_num) (by norm_num)).1 (some 1)

/-- C3, counterexample: app.py's `calculate_co2` does NOT fall back to 0.6
for a matching species row whose stored wood_density is SQL NULL — pandas
hands the branch a NaN density without raising, the bare except never fires,
and with dbh = 10 the DBH product is NaN (`none`), not the normal value the
claim demands (the result for a stored density of exactly 0.6). -/
theorem app_null_density_counterexample :
    calculate_co2 [⟨"Ficus religiosa", none⟩] "Ficus religiosa" none (some 10) = none
    ∧ calculate_co2 [⟨"Ficus religiosa", none⟩] "Ficus religiosa" none (some 10)
      ≠ some (calculate_co2_sequestration [⟨"Ficus religiosa", some 0.6⟩]
          "Ficus religiosa" none (some 10)) := by
  have h1 : calculate_co2 [⟨"Ficus religiosa", none⟩] "Ficus religiosa"
      none (some 10) = none := by
    unfold calculate_co2
    rw [if_pos (by norm_num [Option.getD_some] : (0:ℝ) < (some (10:ℝ)).getD 0)]
    rw [show lookupDensityApp [⟨"Ficus religiosa", none⟩] "Ficus religiosa" = none from by
      simp [lookupDensityApp, List.find?]]
  refine ⟨h1, ?_⟩
  rw [h1]
  simp

/-- C3, amended: in the kobo copies every unresolved lookup — unknown name,
missing record, or NULL stored density — proceeds with the fixed default 0.6
and returns the normal computed value, equal to the result for a species
stored with density exactly 0.6, never surfacing an error; app.py's copy
substitutes 0.6 only when the record is missing (the raised-and-caught
IndexError path), its NULL-density path yielding NaN instead. -/
theorem unknown_species_default :
    (∀ (species : List SpeciesRow) (name : String),
      (species.find? (fun r => r.scientific_name == name) = none
        ∨ ∃ r, species.find? (fun r => r.scientific_name == name) = some r
            ∧ r.wood_density = none) →
      lookupDensity species name = 0.6
      ∧ ∀ rcd dbh, calculate_co2_sequestration species name rcd dbh
          = calculate_co2_sequestration [⟨name, some 0.6⟩] name rcd dbh)
    ∧ ∀ (tbl : List SpeciesRow) (name : String),
      tbl.find? (fun r => r.scientific_name == name) = none →
      lookupDensityApp tbl name = some 0.6
      ∧ ∀ rcd dbh, calculate_co2 tbl name rcd dbh
          = some (calculate_co2_sequestration [⟨name, some 0.6⟩] name rcd dbh) := by
  have hbase : ∀ name : String, lookupDensity [⟨name, some 0.6⟩] name = 0.6 := by
    intro name
    simp [lookupDensity, List.find?]
  constructor
  · intro species name h
    have hl : lookupDensity species name = 0.6 := by
      unfold lookupDensity
      rcases h with h | ⟨r, hr, hw⟩
      · rw [h]
      · rw [hr]
        simp [hw]
    refine ⟨hl, ?_⟩
    intro rcd dbh
    unfold calculate_co2_sequestration
    rw [hl, hbase]
  · intro tbl name h
    have hl : lookupDensityApp tbl name = some 0.6 := by
      unfold lookupDensityApp
      rw [h]
    refine ⟨hl, ?_⟩
    intro rcd dbh
    rw [calculate_co2_resolved tbl name rcd dbh 0.6 hl]
    unfold calculate_co2_sequestration
    rw [hbase]

/-- C3 witness: the empty reference table resolves "Ficus" to the default in
both copies. -/
theorem unknown_species_default_witness :
    lookupDensity [] "Ficus" = 0.6
    ∧ lookupDensityApp [] "Ficus" = some 0.6 :=
  ⟨(unknown_species_default.1 [] "Ficus" (Or.inl rfl)).1,
   (unknown_species_default.2 [] "Ficus" rfl).1⟩

/-- C4: the estimator is deterministic — identical inputs give exactly equal
outputs — and its output depends on nothing but the resolved species density
and the two measurements: any two reference states and names resolving to the
same density give exactly equal results, across both estimator copies. -/
theorem estimator_deterministic :
    (∀ (species : List SpeciesRow) (name : String) (rcd dbh : Option ℝ),
      calculate_co2_sequestration species name rcd dbh
        = calculate_co2_sequestration species name rcd dbh)
    ∧ (∀ (s₁ s₂ : List SpeciesRow) (n₁ n₂ : String) (rcd dbh : Option ℝ),
      lookupDensity s₁ n₁ = lookupDensity s₂ n₂ →
      calculate_co2_sequestration s₁ n₁ rcd dbh = calculate_co2_sequestration s₂ n₂ rcd dbh)
    ∧ ∀ (s₁ s₂ : List SpeciesRow) (n₁ n₂ : String) (rcd dbh : Option ℝ),
      lookupDensityApp s₁ n₁ = some (lookupDensity s₂ n₂) →
      calculate_co2 s₁ n₁ rcd dbh = some (calculate_co2_sequestration s₂ n₂ rcd dbh) := by
  refine ⟨fun _ _ _ _ => rfl, ?_, ?_⟩
  · intro s₁ s₂ n₁ n₂ rcd dbh h
    unfold calculate_co2_sequestration
    rw [h]
  · intro s₁ s₂ n₁ n₂ rcd dbh h
    exact calculate_co2_resolved s₁ n₁ rcd dbh _ h

/-- C4 witness: two different unmatched names resolve to the same density and
give exactly equal results. -/
theorem estimator_deterministic_witness :
    calculate_co2_sequestration [] "Acacia spp." none none
      = calculate_co2_sequestration [] "Eucalyptus spp." none none :=
  estimator_deterministic.2.1 [] [] "Acacia spp." "Eucalyptus spp." none none rfl

end CarbonTally
